import Mathlib

/-!
Verification of the ai_notebook transcription utility.

This file gives a shallow embedding of the repository source files
`environment.py`, `transformers.py` and `main.py` and proves properties
of the embedded operations.  Python objects become Lean structures,
method calls become state-passing functions, the ambient filesystem is a
finite map from paths to file contents, standard input is a list of
pending operator entries, and Python exceptions become an explicit
`Option String` result (the name of the propagated exception, or `none`
for a normal return).
-/

/-- The filesystem: a map from paths to optional file contents. -/
abbrev FS := String → Option String

/-- Reading a file: look the path up in the filesystem map. -/
def fsRead (fs : FS) (p : String) : Option String := fs p

/-- Existence check, as `os.path.exists` observes it. -/
def fsExists (fs : FS) (p : String) : Bool := (fs p).isSome

/-- Writing a file with mode w: the new content replaces whatever was
at the path before (creation or truncation plus write). -/
def fsWrite (fs : FS) (p c : String) : FS :=
  fun q => if q = p then some c else fs q

/-- Removing a path from the filesystem. -/
def fsRemove (fs : FS) (p : String) : FS :=
  fun q => if q = p then none else fs q

/-- Python truthiness of a string: the empty string is falsy. -/
def pyTruthy (s : String) : Bool := s != ""

/-- How a Python f-string renders a value that is either a string or
None: None renders as the four characters None. -/
def pyStr : Option String → String
  | none => "None"
  | some s => s

/-!
Embedding of `environment.py`, class `Environment`.

The record carries the object state (`API_KEY`, which Python may set to
None, hence `Option String`), the process environment as observed after
`load_dotenv` has run, the global `openai.api_key`, the content of the
`.env` file (`none` when the file does not exist), and pending standard
input.  `prompts` counts how many times `input()` was called.
-/

structure Environment where
  env_file_exists : Bool
  environment : String → Option String
  API_KEY : Option String
  openai_api_key : Option String
  dotenv_content : Option String
  stdin : List String
  prompts : Nat

/-- Constructor of `Environment`: `load_dotenv` reports whether a .env
file exists and `_API_KEY` starts as the empty string. -/
def Environment.init (efe : Bool) (environ : String → Option String)
    (dotenv : Option String) (stdin : List String) : Environment :=
  ⟨efe, environ, some "", none, dotenv, stdin, 0⟩

/-- Accessor `get_api_key`: returns the `_API_KEY` attribute. -/
def Environment.get_api_key (s : Environment) : Option String := s.API_KEY

/-- The single line `_save_api_key` prints into the .env file; `print`
appends a newline. -/
def dotenvLine (k : Option String) : String :=
  "OPENAI_API_KEY=\"" ++ pyStr k ++ "\"\n"

/-- Method `_save_api_key`: opens .env with mode w (truncating) and
prints the key line, so the file content becomes exactly that line. -/
def Environment.save_api_key (s : Environment) : Environment :=
  { s with dotenv_content := some (dotenvLine s.API_KEY) }

/-- Method `set_openai_api_key` of `environment.py`: explicit argument
first, then the process environment when a .env file exists, otherwise
an interactive prompt; afterwards `openai.api_key` is assigned from
`get_api_key` and the key is saved to the .env file. -/
def Environment.set_openai_api_key (s : Environment) (api_key : String) :
    Environment :=
  let s1 :=
    if pyTruthy api_key then
      { s with API_KEY := some api_key }
    else if s.env_file_exists then
      { s with API_KEY := s.environment "OPENAI_API_KEY" }
    else
      { s with API_KEY := some (s.stdin.headD ""), stdin := s.stdin.tail,
               prompts := s.prompts + 1 }
  let s2 := { s1 with openai_api_key := s1.get_api_key }
  s2.save_api_key

/-!
Embedding of the duplicate class `Environment` at the bottom of
`main.py`.  Its `_API_KEY` is always a string: the constructor runs
`environ.get("OPENAI_API_KEY") or ""`.  Its `set_openai_api_key`
assigns `openai.api_key` but never writes the .env file.
-/

structure EnvironmentMain where
  env_file_exists : Bool
  environment : String → Option String
  API_KEY : String
  openai_api_key : Option String
  dotenv_content : Option String
  stdin : List String
  prompts : Nat

/-- Constructor of the `main.py` variant: `_API_KEY` is the environment
value when present and non-empty, the empty string otherwise. -/
def EnvironmentMain.init (efe : Bool) (environ : String → Option String)
    (dotenv : Option String) (stdin : List String) : EnvironmentMain :=
  ⟨efe, environ, (environ "OPENAI_API_KEY").getD "", none, dotenv, stdin, 0⟩

/-- Accessor `get_api_key` of the `main.py` variant. -/
def EnvironmentMain.get_api_key (s : EnvironmentMain) : String := s.API_KEY

/-- Method `set_openai_api_key` of the `main.py` variant: same branch
structure, but the .env branch keeps the constructor value, nothing is
persisted, and `openai.api_key` is assigned from `get_api_key` at the
end of every branch. -/
def EnvironmentMain.set_openai_api_key (s : EnvironmentMain)
    (api_key : String) : EnvironmentMain :=
  let s1 :=
    if pyTruthy api_key then
      let t := { s with API_KEY := api_key }
      { t with openai_api_key := some t.get_api_key }
    else if s.env_file_exists then
      { s with openai_api_key := some s.get_api_key }
    else
      { s with API_KEY := s.stdin.headD "", stdin := s.stdin.tail,
               prompts := s.prompts + 1 }
  { s1 with openai_api_key := some s1.get_api_key }

/-!
Embedding of `transformers.py`, class `Transcript`, together with the
method `transcribe_video` of the duplicate class in `main.py`.

The outcome of the single call to the external transcription service is
an explicit input of the embedded methods: the service either returns a
response whose text field is extracted with `.get("text")` (possibly
absent), raises `openai.error.AuthenticationError` with the fields
error, code and user_message, or raises some other exception.
-/

inductive TranscribeOutcome where
  | ok (text : Option String)
  | authError (error : String) (code : Nat) (user_message : String)
  | exn (name : String)

structure Transcript where
  transcript : Option String
  transcript_filepath : String
  audio_filepath : String
  files : FS
  reports : List (String × Nat × String)
  openHandles : Nat

/-- Method `save_transcript`: opens the output file with mode w and
prints the transcript; `print` renders None as the string None and
appends a newline. -/
def Transcript.save_transcript (st : Transcript) : Transcript :=
  { st with files :=
      fsWrite st.files st.transcript_filepath (pyStr st.transcript ++ "\n") }

/-- Method `_transcribe_audio_file`: opens the audio file for binary
read, then a try block calls the service; `AuthenticationError` is
caught and its error, code and user_message fields are printed; on
success the else block saves the transcript; the finally block closes
the handle; any other exception propagates to the caller. -/
def Transcript.transcribe_audio_file_inner (st : Transcript)
    (svc : TranscribeOutcome) : Transcript × Option String :=
  let st0 := { st with openHandles := st.openHandles + 1 }
  match svc with
  | .ok text =>
      let st1 := { st0 with transcript := text }
      let st2 := st1.save_transcript
      ({ st2 with openHandles := st2.openHandles - 1 }, none)
  | .authError e c m =>
      let st1 := { st0 with reports := st0.reports ++ [(e, c, m)] }
      ({ st1 with openHandles := st1.openHandles - 1 }, none)
  | .exn n =>
      ({ st0 with openHandles := st0.openHandles - 1 }, some n)

/-- Static method `delete_file`: `os.remove` raises FileNotFoundError
when the path does not exist, otherwise it removes the path. -/
def Transcript.delete_file (fs : FS) (p : String) : FS × Option String :=
  if fsExists fs p then (fsRemove fs p, none)
  else (fs, some "FileNotFoundError")

/-- Method `_delete_audio_linux` of `main.py`: runs rm -f through the
shell, which succeeds silently whether or not the path exists; the
subprocess result is not checked. -/
def Transcript.delete_audio_linux (fs : FS) (p : String) :
    FS × Option String :=
  (fsRemove fs p, none)

/-- The while loop of `transcribe_audio_file`: while the current path
does not exist the operator is prompted for a new one; the list is the
sequence of entries the operator will supply. -/
def promptLoop (fs : String → Bool) : List String → String → Option String
  | [], p => if fs p then some p else none
  | i :: rest, p => if fs p then some p else promptLoop fs rest i

/-- The path `transcribe_audio_file` starts its while loop from: a
prompted entry when neither the stored path nor the argument is
non-empty, else the argument when non-empty, else the stored path. -/
def initialPath (selfPath argPath : String) (stdin : List String) : String :=
  if !pyTruthy selfPath && !pyTruthy argPath then stdin.headD ""
  else if pyTruthy argPath then argPath
  else selfPath

/-- The operator entries still pending once the loop starts: the first
entry is consumed by the initial prompt exactly when both candidate
paths are empty. -/
def remainingPrompts (selfPath argPath : String) (stdin : List String) :
    List String :=
  if !pyTruthy selfPath && !pyTruthy argPath then stdin.tail else stdin

/-- Method `transcribe_audio_file`: picks the starting path, runs the
existence-checking prompt loop, and returns the path that is finally
handed to `_transcribe_audio_file` (`none` when the supplied entries
are exhausted without finding an existing path). -/
def Transcript.transcribe_audio_file (selfPath argPath : String)
    (stdin : List String) (fs : String → Bool) : Option String :=
  promptLoop fs (remainingPrompts selfPath argPath stdin)
    (initialPath selfPath argPath stdin)

/-- Method `transcribe_yt_video`: downloads the audio file (so it now
exists on disk), records its path, runs `transcribe_audio_file` (whose
loop exits at once because the file exists), and when `remove_audio` is
set deletes the audio file with `delete_file` after a transcription
attempt that did not raise. -/
def Transcript.transcribe_yt_video (st : Transcript)
    (audioPath audioContent : String) (remove_audio : Bool)
    (svc : TranscribeOutcome) : Transcript × Option String :=
  let stA := { st with files := fsWrite st.files audioPath audioContent,
                       audio_filepath := audioPath }
  match Transcript.transcribe_audio_file stA.audio_filepath "" []
      (fsExists stA.files) with
  | none => (stA, some "EOFError")
  | some p =>
      let stB := { stA with audio_filepath := p }
      let r := stB.transcribe_audio_file_inner svc
      match r.2 with
      | some ex => (r.1, some ex)
      | none =>
          if remove_audio then
            let d := Transcript.delete_file r.1.files r.1.audio_filepath
            ({ r.1 with files := d.1 }, d.2)
          else (r.1, none)

/-- Method `transcribe_video` of `main.py`: downloads the audio file,
opens it, runs the same try block (catching only the authentication
error), saves and prints the transcript on success, and in the finally
block closes the handle and deletes the audio file with rm -f on every
exit path. -/
def Transcript.transcribe_video_main (st : Transcript)
    (audioPath audioContent : String) (svc : TranscribeOutcome) :
    Transcript × Option String :=
  let stA := { st with files := fsWrite st.files audioPath audioContent,
                       audio_filepath := audioPath }
  let st0 := { stA with openHandles := stA.openHandles + 1 }
  match svc with
  | .ok text =>
      let st1 := { st0 with transcript := text }
      let st2 := st1.save_transcript
      let st3 := { st2 with openHandles := st2.openHandles - 1 }
      ({ st3 with files := (Transcript.delete_audio_linux st3.files audioPath).1 },
        none)
  | .authError e c m =>
      let st1 := { st0 with reports := st0.reports ++ [(e, c, m)] }
      let st2 := { st1 with openHandles := st1.openHandles - 1 }
      ({ st2 with files := (Transcript.delete_audio_linux st2.files audioPath).1 },
        none)
  | .exn n =>
      let st1 := { st0 with openHandles := st0.openHandles - 1 }
      ({ st1 with files := (Transcript.delete_audio_linux st1.files audioPath).1 },
        some n)

/-!
Helper lemmas about the filesystem model and the prompt loop.
-/

theorem fsExists_fsWrite_self (fs : FS) (p c : String) :
    fsExists (fsWrite fs p c) p = true := by
  simp [fsExists, fsWrite]

theorem fsExists_fsWrite (fs : FS) (p q c : String) :
    fsExists (fsWrite fs q c) p = (decide (p = q) || fsExists fs p) := by
  by_cases h : p = q <;> simp [fsExists, fsWrite, h]

theorem fsExists_fsRemove_self (fs : FS) (p : String) :
    fsExists (fsRemove fs p) p = false := by
  simp [fsExists, fsRemove]

theorem fsRead_fsWrite_self (fs : FS) (p c : String) :
    fsRead (fsWrite fs p c) p = some c := by
  simp [fsRead, fsWrite]

theorem promptLoop_some (fs : String → Bool) :
    ∀ (inputs : List String) (p q : String),
      promptLoop fs inputs p = some q → fs q = true := by
  intro inputs
  induction inputs with
  | nil =>
      intro p q h
      by_cases hfp : fs p = true
      · simp [promptLoop, hfp] at h
        subst h
        exact hfp
      · simp [promptLoop, hfp] at h
  | cons i rest ih =>
      intro p q h
      by_cases hfp : fs p = true
      · simp [promptLoop, hfp] at h
        subst h
        exact hfp
      · simp [promptLoop, hfp] at h
        exact ih i q h

theorem promptLoop_isSome (fs : String → Bool) :
    ∀ (inputs : List String) (p : String),
      (promptLoop fs inputs p).isSome = (fs p || inputs.any fs) := by
  intro inputs
  induction inputs with
  | nil =>
      intro p
      by_cases hfp : fs p = true <;> simp [promptLoop, hfp]
  | cons i rest ih =>
      intro p
      by_cases hfp : fs p = true <;> simp [promptLoop, hfp, ih i]

theorem transcribe_audio_file_written (base : FS) (p c : String) :
    Transcript.transcribe_audio_file p "" [] (fsExists (fsWrite base p c))
      = some p := by
  by_cases hp : p = ""
  · subst hp
    simp [Transcript.transcribe_audio_file, initialPath, remainingPrompts,
      promptLoop, pyTruthy, fsExists_fsWrite_self]
  · simp [Transcript.transcribe_audio_file, initialPath, remainingPrompts,
      promptLoop, pyTruthy, hp, fsExists_fsWrite_self]

/-!
Claim theorems.
-/

/-- C1: when the transcription service raises an authentication error,
both cited transcription operations — `_transcribe_audio_file` of
`transformers.py` and `transcribe_video` of `main.py` — catch it (no
exception propagates), record the service-provided error kind, code and
human message in the printed report, leave the stored transcript
unchanged (so unset when it was unset) and skip writing the transcript
file: the `transformers.py` method leaves the filesystem untouched, and
the `main.py` method leaves the transcript file unwritten (its content
is what it was before, whenever the transcript path is not the
downloaded audio path, which the method deletes on every exit); in both
methods an exception of any other type propagates to the caller. -/
theorem auth_error_caught_and_reported (st : Transcript)
    (ap ac e m n : String) (c : Nat) :
    ((st.transcribe_audio_file_inner (.authError e c m)).2 = none)
  ∧ ((st.transcribe_audio_file_inner (.authError e c m)).1).reports
      = st.reports ++ [(e, c, m)]
  ∧ ((st.transcribe_audio_file_inner (.authError e c m)).1).transcript
      = st.transcript
  ∧ ((st.transcribe_audio_file_inner (.authError e c m)).1).files = st.files
  ∧ ((st.transcribe_audio_file_inner (.exn n)).2 = some n)
  ∧ ((st.transcribe_video_main ap ac (.authError e c m)).2 = none)
  ∧ ((st.transcribe_video_main ap ac (.authError e c m)).1).reports
      = st.reports ++ [(e, c, m)]
  ∧ ((st.transcribe_video_main ap ac (.authError e c m)).1).transcript
      = st.transcript
  ∧ (st.transcript_filepath ≠ ap →
      fsRead ((st.transcribe_video_main ap ac (.authError e c m)).1).files
          st.transcript_filepath
        = fsRead st.files st.transcript_filepath)
  ∧ ((st.transcribe_video_main ap ac (.exn n)).2 = some n) := by
  refine ⟨?_, ?_, ?_, ?_, ?_, ?_, ?_, ?_, fun hq => ?_, ?_⟩ <;>
    simp [Transcript.transcribe_audio_file_inner,
      Transcript.transcribe_video_main, Transcript.save_transcript,
      Transcript.delete_audio_linux, fsRead, fsRemove, fsWrite, *]

/-- C1 witness: the theorem applied to a fresh object whose transcript
file transcript.txt is distinct from the downloaded audio path
audio.mp4, with the authentication error of the spec example; the
transcript file stays unwritten on the reported failure. -/
theorem auth_error_caught_and_reported_witness :
    fsRead ((Transcript.transcribe_video_main
        ⟨none, "transcript.txt", "", fun _ => none, [], 0⟩ "audio.mp4" "bytes"
        (.authError "invalid_key" 401 "bad key")).1).files "transcript.txt"
      = fsRead (fun _ => none) "transcript.txt" :=
  (auth_error_caught_and_reported
      ⟨none, "transcript.txt", "", fun _ => none, [], 0⟩ "audio.mp4" "bytes"
      "invalid_key" "bad key" "RateLimitError" 401).2.2.2.2.2.2.2.2.1
    (by decide)

/-- C4 counterexample: saving the transcript hello world and reading
the output file back does not return hello world, because the
print-based write appends a newline. -/
theorem save_roundtrip_counterexample :
    ¬ (fsRead (Transcript.save_transcript
          ⟨some "hello world", "transcript.txt", "", fun _ => none, [], 0⟩).files
        "transcript.txt" = some "hello world") := by decide

/-- C4 amended: saving a stored transcript t and reading the target
file back yields exactly t followed by one newline character, the
newline appended by the print-based write. -/
theorem save_roundtrip_amended (st : Transcript) (t : String) :
    fsRead ({ st with transcript := some t } : Transcript).save_transcript.files
        st.transcript_filepath
      = some (t ++ "\n") := by
  simp [Transcript.save_transcript, fsRead, fsWrite, pyStr]

/-- C6: the audio file handle opened by the transcription call is
closed on every exit path, in both the `transformers.py` method and the
`main.py` method: the number of open handles after the call equals the
number before, whatever the service outcome (success, authentication
failure, or any other exception). -/
theorem file_handle_closed_on_every_path (st : Transcript)
    (svc : TranscribeOutcome) (ap ac : String) :
    ((st.transcribe_audio_file_inner svc).1).openHandles = st.openHandles
  ∧ ((st.transcribe_video_main ap ac svc).1).openHandles = st.openHandles := by
  cases svc <;>
    simp [Transcript.transcribe_audio_file_inner,
      Transcript.transcribe_video_main, Transcript.save_transcript,
      Transcript.delete_audio_linux]

/-- C7 counterexample: on a path that does not exist, the `main.py`
cleanup method (rm -f through the shell) surfaces no filesystem error,
so the claim fails for that cleanup operation. -/
theorem cleanup_missing_counterexample :
    ¬ (fsExists (fun _ => none) "missing.mp3" = false →
        (Transcript.delete_audio_linux (fun _ => none) "missing.mp3").2.isSome
          = true) := by decide

/-- C7 amended: on a path that does not exist, the `transformers.py`
cleanup `delete_file` surfaces the filesystem error (os.remove raises
FileNotFoundError), while the `main.py` cleanup `_delete_audio_linux`
silently succeeds as a no-op. -/
theorem cleanup_missing_amended (fs : FS) (p : String)
    (h : fsExists fs p = false) :
    (Transcript.delete_file fs p).2 = some "FileNotFoundError"
  ∧ (Transcript.delete_audio_linux fs p).2 = none := by
  simp [Transcript.delete_file, Transcript.delete_audio_linux, h]

/-- C7 witness: the amended theorem applied to the empty filesystem and
a concrete missing path. -/
theorem cleanup_missing_amended_witness :
    (Transcript.delete_file (fun _ => none) "missing.mp3").2
        = some "FileNotFoundError"
  ∧ (Transcript.delete_audio_linux (fun _ => none) "missing.mp3").2 = none :=
  cleanup_missing_amended (fun _ => none) "missing.mp3" (by decide)

/-- C5: with the default cleanup configuration (remove_audio true in
`transformers.py`; unconditional rm -f in `main.py`), after a
successful media fetch followed by either terminal outcome of the
transcription attempt — success or reported authentication failure —
the downloaded audio artifact no longer exists on disk and no exception
propagates. -/
theorem audio_deleted_on_terminal_paths (st : Transcript)
    (ap ac : String) (text : Option String) (e m : String) (c : Nat) :
    (fsExists ((st.transcribe_yt_video ap ac true (.ok text)).1).files ap
        = false
      ∧ (st.transcribe_yt_video ap ac true (.ok text)).2 = none)
  ∧ (fsExists ((st.transcribe_yt_video ap ac true (.authError e c m)).1).files
        ap = false
      ∧ (st.transcribe_yt_video ap ac true (.authError e c m)).2 = none)
  ∧ (fsExists ((st.transcribe_video_main ap ac (.ok text)).1).files ap = false
      ∧ (st.transcribe_video_main ap ac (.ok text)).2 = none)
  ∧ (fsExists ((st.transcribe_video_main ap ac (.authError e c m)).1).files ap
        = false
      ∧ (st.transcribe_video_main ap ac (.authError e c m)).2 = none) := by
  refine ⟨⟨?_, ?_⟩, ⟨?_, ?_⟩, ⟨?_, ?_⟩, ⟨?_, ?_⟩⟩ <;>
    simp [Transcript.transcribe_yt_video, transcribe_audio_file_written,
      Transcript.transcribe_audio_file_inner, Transcript.save_transcript,
      Transcript.delete_file, Transcript.transcribe_video_main,
      Transcript.delete_audio_linux, fsExists_fsWrite, fsExists_fsWrite_self,
      fsExists_fsRemove_self]

/-- C8: the public `transcribe_audio_file` hands the underlying
transcription only a path that exists on disk when the prompt loop
exits, and the loop terminates exactly when the starting path or one of
the operator-supplied entries names an existing path. -/
theorem prompt_loop_transcribe_contract (selfPath argPath : String)
    (stdin : List String) (fs : String → Bool) :
    (∀ p, Transcript.transcribe_audio_file selfPath argPath stdin fs = some p →
        fs p = true)
  ∧ ((Transcript.transcribe_audio_file selfPath argPath stdin fs).isSome
      = (fs (initialPath selfPath argPath stdin)
          || (remainingPrompts selfPath argPath stdin).any fs)) := by
  constructor
  · intro p h
    exact promptLoop_some fs (remainingPrompts selfPath argPath stdin)
      (initialPath selfPath argPath stdin) p h
  · exact promptLoop_isSome fs (remainingPrompts selfPath argPath stdin)
      (initialPath selfPath argPath stdin)

/-- C8 witness: with no stored path, no argument and operator entries
nope then good.mp3 on a disk where only good.mp3 exists, the
transcription is invoked with good.mp3, which exists. -/
theorem prompt_loop_transcribe_contract_witness :
    (fun s => s == "good.mp3") "good.mp3" = true :=
  (prompt_loop_transcribe_contract "" "" ["nope", "good.mp3"]
      (fun s => s == "good.mp3")).1 "good.mp3" (by decide)

/-- C2: credential resolution order, first match wins, in both resolver
variants. A non-empty explicit argument is returned exactly; with no
argument and an existing .env file the key comes from the configuration
file (the process environment as populated by load_dotenv); with no
argument and no .env file the operator is prompted and the entered
string is returned exactly. -/
theorem credential_resolution_order (s : Environment)
    (environ : String → Option String) (dotenv : Option String)
    (stdin rest : List String) (arg k e : String) :
    (pyTruthy arg = true →
        (s.set_openai_api_key arg).API_KEY = some arg
      ∧ ∀ t : EnvironmentMain, (t.set_openai_api_key arg).API_KEY = arg)
  ∧ (pyTruthy arg = false → s.env_file_exists = true →
        (s.set_openai_api_key arg).API_KEY = s.environment "OPENAI_API_KEY")
  ∧ (environ "OPENAI_API_KEY" = some k →
        ((EnvironmentMain.init true environ dotenv stdin).set_openai_api_key
            "").API_KEY = k)
  ∧ (pyTruthy arg = false → s.env_file_exists = false → s.stdin = e :: rest →
        (s.set_openai_api_key arg).API_KEY = some e
      ∧ (s.set_openai_api_key arg).prompts = s.prompts + 1)
  ∧ (((EnvironmentMain.init false environ dotenv
        (e :: rest)).set_openai_api_key "").API_KEY = e) := by
  refine ⟨?_, ?_, ?_, ?_, ?_⟩
  · intro h
    constructor
    · simp [Environment.set_openai_api_key, Environment.save_api_key,
        Environment.get_api_key, h]
    · intro t
      simp [EnvironmentMain.set_openai_api_key, EnvironmentMain.get_api_key, h]
  · intro h1 h2
    simp [Environment.set_openai_api_key, Environment.save_api_key,
      Environment.get_api_key, h1, h2]
  · intro h
    simp [EnvironmentMain.set_openai_api_key, EnvironmentMain.init,
      EnvironmentMain.get_api_key, pyTruthy, h]
  · intro h1 h2 h3
    simp [Environment.set_openai_api_key, Environment.save_api_key,
      Environment.get_api_key, h1, h2, h3]
  · simp [EnvironmentMain.set_openai_api_key, EnvironmentMain.init,
      EnvironmentMain.get_api_key, pyTruthy]

/-- C2 witness: the prompt branch of the `environment.py` resolver on a
concrete fresh state with no .env file and the entry typed-key pending
on standard input. -/
theorem credential_resolution_order_witness :
    ((Environment.init false (fun _ => none) none
        ["typed-key"]).set_openai_api_key "").API_KEY = some "typed-key"
  ∧ ((Environment.init false (fun _ => none) none
        ["typed-key"]).set_openai_api_key "").prompts
      = (Environment.init false (fun _ => none) none ["typed-key"]).prompts
          + 1 :=
  (credential_resolution_order
    (Environment.init false (fun _ => none) none ["typed-key"])
    (fun _ => none) none [] [] "" "" "typed-key").2.2.2.1
    (by decide) rfl rfl

/-- C3 counterexample: the `main.py` resolver variant, run from a fresh
state with no .env file and the operator entering sk-test, resolves the
credential but writes nothing to the configuration file, so the file
content is not the documented key line. -/
theorem resolver_persistence_counterexample :
    ¬ (((EnvironmentMain.init false (fun _ => none) none
          ["sk-test"]).set_openai_api_key "").dotenv_content
        = some "OPENAI_API_KEY=\"sk-test\"\n") := by decide

/-- C3 amended: the `environment.py` resolver persists after every
resolution, whichever source produced the credential: the .env file
content becomes exactly the single line OPENAI_API_KEY="<value>"
regardless of its prior content; the `main.py` resolver variant never
writes the configuration file. -/
theorem resolver_persistence_amended (s : Environment) (t : EnvironmentMain)
    (arg arg2 : String) :
    (s.set_openai_api_key arg).dotenv_content
      = some (dotenvLine (s.set_openai_api_key arg).API_KEY)
  ∧ (t.set_openai_api_key arg2).dotenv_content = t.dotenv_content := by
  constructor
  · rfl
  · by_cases h : pyTruthy arg2 = true
    · simp [EnvironmentMain.set_openai_api_key, EnvironmentMain.get_api_key, h]
    · by_cases h2 : t.env_file_exists = true <;>
        simp [EnvironmentMain.set_openai_api_key, EnvironmentMain.get_api_key,
          h, h2]

/-- C9: when no explicit key is supplied and a .env file exists but the
process environment holds no OPENAI_API_KEY value, the `environment.py`
resolver does not prompt, stores the absent value None as the
credential, and persists the literal line OPENAI_API_KEY="None" to the
configuration file. -/
theorem env_file_without_key_stores_none (s : Environment)
    (h1 : s.env_file_exists = true)
    (h2 : s.environment "OPENAI_API_KEY" = none) :
    ((s.set_openai_api_key "").API_KEY = none)
  ∧ ((s.set_openai_api_key "").prompts = s.prompts)
  ∧ ((s.set_openai_api_key "").dotenv_content
      = some "OPENAI_API_KEY=\"None\"\n") := by
  simp [Environment.set_openai_api_key, Environment.save_api_key,
    Environment.get_api_key, dotenvLine, pyStr, pyTruthy, h1, h2]

/-- C9 witness: the theorem applied to a fresh resolver state whose
.env file exists while the environment holds no key. -/
theorem env_file_without_key_stores_none_witness :
    ((Environment.init true (fun _ => none) (some "") []).set_openai_api_key
        "").API_KEY = none
  ∧ ((Environment.init true (fun _ => none) (some "") []).set_openai_api_key
        "").prompts
      = (Environment.init true (fun _ => none) (some "") []).prompts
  ∧ ((Environment.init true (fun _ => none) (some "") []).set_openai_api_key
        "").dotenv_content = some "OPENAI_API_KEY=\"None\"\n" :=
  env_file_without_key_stores_none
    (Environment.init true (fun _ => none) (some "") []) rfl rfl

/-- C10: after every return of `set_openai_api_key`, in both resolver
variants, the global openai.api_key equals the value the accessor
`get_api_key` returns. -/
theorem openai_key_matches_get_api_key (s : Environment)
    (t : EnvironmentMain) (arg arg2 : String) :
    ((s.set_openai_api_key arg).openai_api_key
      = (s.set_openai_api_key arg).get_api_key)
  ∧ ((t.set_openai_api_key arg2).openai_api_key
      = some (t.set_openai_api_key arg2).get_api_key) :=
  ⟨rfl, rfl⟩
